import Mathlib

/-!
Shallow embedding of the pysqlsync schema object model and structural
mutation (diff) engine, translated from `src/pysqlsync/formation/mutation.py`
and `src/pysqlsync/dialect/{postgresql/object_types.py, oracle/mutation.py}`.
The object-model module (`formation/object_types.py`) and the literal
renderer (`formation/data_types.py`) are absent from the corpus; the few
definitions taken from them are modelled from the spec and marked as such
in their doc comments.  Python `Optional[str]` return values become
`Option String`; raised exceptions become `Except Err` results; the
order-preserving name-keyed mappings of the object model become lists whose
key uniqueness is captured by the `WellFormed` predicates.
-/

namespace PySqlSync

/-- Error taxonomy of the formation module: `FormationError`,
`ColumnFormationError`, and `TableFormationError`; the latter carries the
owning table's identifier and the original error as its cause
(Python `raise ... from e`). -/
inductive Err where
  | formationError (msg : String)
  | columnFormationError (msg : String)
  | tableFormationError (msg : String) (tableName : String) (cause : Err)
deriving DecidableEq, Repr

/-- A table column: logical name, rendered SQL data type, nullability flag,
optional default expression, identity flag, optional description.
Structural (dataclass) equality over every attribute is exactly the
equality used by `Mutator.mutate_column_stmt`. -/
structure Column where
  name : String
  data_type : String
  nullable : Bool
  default : Option String
  identity : Bool
  description : Option String
deriving DecidableEq, Repr

/-- A table constraint: name, rendered specification, and the flag telling
whether it is expressed via a separate `ALTER TABLE` (`is_alter_table`). -/
structure Constraint where
  name : String
  spec : String
  is_alter_table : Bool
deriving DecidableEq, Repr

/-- A table: name, ordered column list (name-keyed mapping in the source),
constraint set, optional description. -/
structure Table where
  name : String
  columns : List Column
  constraints : List Constraint
  description : Option String
deriving DecidableEq, Repr

/-- An enumeration type: name and ordered sequence of permitted values. -/
structure EnumType where
  name : String
  values : List String
deriving DecidableEq, Repr

/-- A member of a composite (struct) type: name, data type, description. -/
structure StructMember where
  name : String
  data_type : String
  description : Option String
deriving DecidableEq, Repr

/-- A composite type: name and ordered member list. -/
structure StructType where
  name : String
  members : List StructMember
  description : Option String
deriving DecidableEq, Repr

/-- A namespace (schema): name plus its enum, struct and table collections,
each an order-preserving name-keyed mapping in the source. -/
structure Namespace where
  name : String
  enums : List EnumType
  structs : List StructType
  tables : List Table
deriving DecidableEq, Repr

/-- A catalog: the top-level container of namespaces. -/
structure Catalog where
  namespaces : List Namespace
deriving DecidableEq, Repr

instance {ε α : Type} [DecidableEq ε] [DecidableEq α] : DecidableEq (Except ε α) := fun x y =>
  match x, y with
  | .error a, .error b =>
    if h : a = b then isTrue (congrArg Except.error h)
    else isFalse (fun hc => h (by cases hc; rfl))
  | .ok a, .ok b =>
    if h : a = b then isTrue (congrArg Except.ok h)
    else isFalse (fun hc => h (by cases hc; rfl))
  | .error _, .ok _ => isFalse (fun hc => by cases hc)
  | .ok _, .error _ => isFalse (fun hc => by cases hc)

/-- `Mutator.check_identity` (mutation.py lines 23-25): raises
`FormationError` when the two logical names differ. -/
def check_identity (source target : String) : Except Err Unit :=
  if source ≠ target then
    .error (.formationError ("object mismatch: " ++ source ++ " != " ++ target))
  else
    .ok ()

/-- Modelled from the spec: the literal renderer `constant` from
`formation/data_types.py` (module absent from the corpus).  Spec section 4.1:
a string literal is wrapped in apostrophes with embedded apostrophes escaped
by doubling.  No mutation claim constrains its exact output. -/
def constant (v : String) : String :=
  "\x27" ++ String.join (v.toList.map (fun c => if c = '\x27' then "\x27\x27" else String.singleton c)) ++ "\x27"

/-- `Mutator.mutate_enum_stmt` (mutation.py lines 27-46): values removed from
the enumeration are a hard error; added values become one `ALTER TYPE`
statement with an `ADD VALUE` clause per value, in target order. -/
def mutate_enum_stmt (source target : EnumType) : Except Err (Option String) :=
  match check_identity source.name target.name with
  | .error e => .error e
  | .ok _ =>
    let removed_values := source.values.filter (fun v => decide (v ∉ target.values))
    if removed_values ≠ [] then
      .error (.formationError
        ("operation not permitted; cannot drop values in an enumeration: " ++ String.join removed_values))
    else
      let added_values := target.values.filter (fun v => decide (v ∉ source.values))
      if added_values ≠ [] then
        .ok (some ("ALTER TYPE " ++ source.name ++ "\n" ++
          ",\n".intercalate (added_values.map (fun v => "ADD VALUE " ++ constant v)) ++ ";"))
      else
        .ok none

/-- Modelled from the spec: rendering a struct member (name and data type),
standing in for the member's string conversion used by line 59 of
mutation.py (the member class lives in the absent object_types module). -/
def struct_member_str (m : StructMember) : String := m.name ++ " " ++ m.data_type

/-- `Mutator.mutate_struct_stmt` (mutation.py lines 48-63).  Note: line 58 of
the source tests `target_member not in target.members.values()` — the target
collection against itself — so the `ADD ATTRIBUTE` list is always empty. -/
def mutate_struct_stmt (source target : StructType) : Except Err (Option String) :=
  match check_identity source.name target.name with
  | .error e => .error e
  | .ok _ =>
    let drops := (source.members.filter (fun m => decide (m ∉ target.members))).map
      (fun m => "DROP ATTRIBUTE " ++ m.name)
    let adds := (target.members.filter (fun m => decide (m ∉ target.members))).map
      (fun m => "ADD ATTRIBUTE " ++ struct_member_str m)
    let statements := drops ++ adds
    if statements ≠ [] then
      .ok (some ("ALTER TYPE " ++ source.name ++ "\n" ++ ",\n".intercalate statements ++ ";\n"))
    else
      .ok none

/-- Rendering of a Python `Optional[str]` inside an f-string
(`f"SET DEFAULT {target.default}"`): `None` prints as `"None"`. -/
def py_opt_str : Option String → String
  | some s => s
  | none => "None"

/-- `Mutator.mutate_column_stmt` (mutation.py lines 65-92): structural
equality short-circuit, then one fragment per changed attribute, joined as
`ALTER COLUMN` clauses.  No identity check is performed for columns. -/
def mutate_column_stmt (source target : Column) : Option String :=
  if source = target then none
  else
    let statements :=
      (if source.data_type ≠ target.data_type then ["SET DATA TYPE " ++ target.data_type] else []) ++
      (if source.nullable ∧ ¬ target.nullable then ["SET NOT NULL"]
       else if ¬ source.nullable ∧ target.nullable then ["DROP NOT NULL"] else []) ++
      (if source.default.isSome ∧ target.default = none then ["DROP DEFAULT"]
       else if source.default ≠ target.default then ["SET DEFAULT " ++ py_opt_str target.default] else []) ++
      (if source.identity ∧ ¬ target.identity then ["DROP IDENTITY"]
       else if ¬ source.identity ∧ target.identity then ["ADD GENERATED BY DEFAULT AS IDENTITY"] else [])
    if statements ≠ [] then
      some (",\n".intercalate (statements.map (fun s => "ALTER COLUMN " ++ source.name ++ " " ++ s)))
    else
      none

/-- Modelled from the spec: `OracleColumn.default_expr` (the Oracle column
class lives in a module absent from the corpus) — the rendered default
expression of a column whose default is present. -/
def oracle_default_expr (c : Column) : String := c.default.getD ""

/-- `OracleMutator.mutate_column_stmt` (dialect/oracle/mutation.py lines
11-39): one `MODIFY` clause joining a change token per differing attribute,
in the order data type, default, nullability, identity. -/
def oracle_mutate_column_stmt (source target : Column) : Option String :=
  let changes :=
    (if source.data_type ≠ target.data_type then [target.data_type] else []) ++
    (if source.default ≠ target.default then
       (match target.default with
        | some _ => ["DEFAULT " ++ oracle_default_expr target]
        | none => ["DEFAULT NULL"])
     else []) ++
    (if source.nullable ≠ target.nullable then
       (if ¬ target.nullable then ["NOT NULL"] else ["NULL"]) else []) ++
    (if source.identity ≠ target.identity then
       (if target.identity then ["GENERATED BY DEFAULT AS IDENTITY"] else ["DROP IDENTITY"]) else [])
  if changes ≠ [] then
    some ("MODIFY " ++ source.name ++ " " ++ " ".intercalate changes)
  else
    none

/-- The per-column operations a dialect supplies to the table mutator
through single and dynamic dispatch: `Column.create_stmt`,
`Column.drop_stmt` (object dispatch) and `self.mutate_column_stmt`
(overridable by dialect mutators).  They may raise, which the table mutator
catches; the base variants are total. -/
structure ColumnOps where
  create_stmt : Column → Except Err String
  drop_stmt : Column → Except Err String
  mutate_column_stmt : Column → Column → Except Err (Option String)

/-- Modelled from the spec: base column rendering
`name type [NOT NULL] [DEFAULT expr] [identity-clause]` (spec section 4.2;
the base Column class lives in the absent object_types module). -/
def col_create_stmt (c : Column) : String :=
  c.name ++ " " ++ c.data_type ++
  (if ¬ c.nullable then " NOT NULL" else "") ++
  (match c.default with
   | some d => " DEFAULT " ++ d
   | none => "") ++
  (if c.identity then " GENERATED BY DEFAULT AS IDENTITY" else "")

/-- Modelled from the spec: dropping a column inside an `ALTER TABLE`
fragment list (the base Column class lives in the absent object_types
module). -/
def col_drop_stmt (c : Column) : String := "DROP COLUMN " ++ c.name

/-- The base `Mutator`'s column operations: pure rendering and the base
`mutate_column_stmt`, which never raise. -/
def base_column_ops : ColumnOps where
  create_stmt c := .ok (col_create_stmt c)
  drop_stmt c := .ok (col_drop_stmt c)
  mutate_column_stmt s t := .ok (PySqlSync.mutate_column_stmt s t)

/-- The `except ColumnFormationError ... raise TableFormationError(...) from e`
pattern of mutation.py lines 108-111 and 117-120: a `ColumnFormationError`
is wrapped into a `TableFormationError` carrying the target table's name and
the original error as cause; any other outcome passes through. -/
def catch_column_error {α : Type} (msg tableName : String) : Except Err α → Except Err α
  | .error (.columnFormationError m) =>
    .error (.tableFormationError msg tableName (.columnFormationError m))
  | r => r

/-- One step of the first per-column loop of `mutate_table_stmt`
(mutation.py lines 100-107): a target column absent from the source is
created; one present in both is diffed, the result appended when truthy. -/
def column_pass_frag (ops : ColumnOps) (source : Table) (tc : Column) : Except Err (List String) :=
  match source.columns.find? (fun c => c.name == tc.name) with
  | none =>
    match ops.create_stmt tc with
    | .error e => .error e
    | .ok st => .ok [st]
  | some sc =>
    match ops.mutate_column_stmt sc tc with
    | .error e => .error e
    | .ok (some st) => if st ≠ "" then .ok [st] else .ok []
    | .ok none => .ok []

/-- The first per-column loop of `mutate_table_stmt`, folded over the target
columns in order. -/
def table_create_update_frags (ops : ColumnOps) (source : Table) : List Column → Except Err (List String)
  | [] => .ok []
  | tc :: rest =>
    match column_pass_frag ops source tc with
    | .error e => .error e
    | .ok frag =>
      match table_create_update_frags ops source rest with
      | .error e => .error e
      | .ok rest_frags => .ok (frag ++ rest_frags)

/-- One step of the second per-column loop of `mutate_table_stmt`
(mutation.py lines 114-116): a source column absent from the target is
dropped. -/
def column_drop_frag (ops : ColumnOps) (target : Table) (sc : Column) : Except Err (List String) :=
  if target.columns.any (fun c => c.name == sc.name) then .ok []
  else
    match ops.drop_stmt sc with
    | .error e => .error e
    | .ok st => .ok [st]

/-- The second per-column loop of `mutate_table_stmt`, folded over the
source columns in order. -/
def table_drop_frags (ops : ColumnOps) (target : Table) : List Column → Except Err (List String)
  | [] => .ok []
  | sc :: rest =>
    match column_drop_frag ops target sc with
    | .error e => .error e
    | .ok frag =>
      match table_drop_frags ops target rest with
      | .error e => .error e
      | .ok rest_frags => .ok (frag ++ rest_frags)

/-- The constraint branch of `mutate_table_stmt` (mutation.py lines
122-132): fragments are produced only when exactly one of the two tables
has constraints; the branch for both-present is left unimplemented (`...`)
in the source and produces nothing. -/
def constraint_frags (source target : Table) : List String :=
  if source.constraints ≠ [] ∧ target.constraints = [] then
    (source.constraints.filter (fun c => c.is_alter_table)).map (fun c => "DROP CONSTRAINT " ++ c.name)
  else if source.constraints = [] ∧ target.constraints ≠ [] then
    (target.constraints.filter (fun c => c.is_alter_table)).map (fun c => "ADD CONSTRAINT " ++ c.spec)
  else
    []

/-- Modelled from the spec: `Table.alter_table_stmt` wraps the fragment list
into a single `ALTER TABLE` statement (spec section 4.4; the Table class
lives in the absent object_types module). -/
def alter_table_stmt (t : Table) (stmts : List String) : String :=
  "ALTER TABLE " ++ t.name ++ "\n" ++ ",\n".intercalate stmts ++ ";"

/-- `Mutator.mutate_table_stmt` (mutation.py lines 94-137): identity check,
the two per-column loops with their `ColumnFormationError` wrapping, the
constraint branch, and the final wrap into one `ALTER TABLE` statement
(or `None` when no fragment was produced). -/
def mutate_table_stmt (ops : ColumnOps) (source target : Table) : Except Err (Option String) :=
  match check_identity source.name target.name with
  | .error e => .error e
  | .ok _ =>
    match catch_column_error "failed to create or update columns in table" target.name
        (table_create_update_frags ops source target.columns) with
    | .error e => .error e
    | .ok s1 =>
      match catch_column_error "failed to drop columns in table" target.name
          (table_drop_frags ops target source.columns) with
      | .error e => .error e
      | .ok s2 =>
        let statements := s1 ++ s2 ++ constraint_frags source target
        if statements ≠ [] then .ok (some (alter_table_stmt source statements))
        else .ok none

/-- `_create_diff` (mutation.py lines 196-197): create statements for the
target children absent from the source, in target order. -/
def create_diff {α : Type} (key : α → String) (create : α → String) (source target : List α) : List String :=
  (target.filter (fun t => ! source.any (fun s => key s == key t))).map create

/-- `_drop_diff` (mutation.py lines 200-201): drop statements for the source
children absent from the target, in source order. -/
def drop_diff {α : Type} (key : α → String) (drop : α → String) (source target : List α) : List String :=
  (source.filter (fun s => ! target.any (fun t => key t == key s))).map drop

/-- `_mutate_diff` (mutation.py lines 204-217): diff each child present in
both trees (matched by key), in source order, keeping truthy results; a
raised error aborts the iteration. -/
def mutate_diff {α : Type} (f : α → α → Except Err (Option String)) (key : α → String) :
    List α → List α → Except Err (List String)
  | [], _ => .ok []
  | s :: rest, target =>
    match target.find? (fun t => key t == key s) with
    | none => mutate_diff f key rest target
    | some t =>
      match f s t with
      | .error e => .error e
      | .ok stmt =>
        match mutate_diff f key rest target with
        | .error e => .error e
        | .ok rest_stmts =>
          match stmt with
          | some st => if st ≠ "" then .ok (st :: rest_stmts) else .ok rest_stmts
          | none => .ok rest_stmts

/-- Modelled from the spec: `CREATE TYPE name AS ENUM (value, ...)`
(spec section 4.2; the EnumType class lives in the absent object_types
module). -/
def enum_create_stmt (e : EnumType) : String :=
  "CREATE TYPE " ++ e.name ++ " AS ENUM (" ++ ", ".intercalate (e.values.map constant) ++ ");"

/-- Modelled from the spec: dropping an enumeration type. -/
def enum_drop_stmt (e : EnumType) : String := "DROP TYPE " ++ e.name ++ ";"

/-- Modelled from the spec: `CREATE TYPE name AS (member, ...)`
(spec section 4.2). -/
def struct_create_stmt (s : StructType) : String :=
  "CREATE TYPE " ++ s.name ++ " AS (" ++ ", ".intercalate (s.members.map struct_member_str) ++ ");"

/-- Modelled from the spec: dropping a composite type. -/
def struct_drop_stmt (s : StructType) : String := "DROP TYPE " ++ s.name ++ ";"

/-- Modelled from the spec: `CREATE TABLE name (columns, inline
constraints)` (spec section 4.2; deferred constraints render separately). -/
def table_create_stmt (t : Table) : String :=
  "CREATE TABLE " ++ t.name ++ " (" ++
  ", ".intercalate (t.columns.map col_create_stmt ++
    (t.constraints.filter (fun c => ! c.is_alter_table)).map (fun c => "CONSTRAINT " ++ c.spec)) ++ ");"

/-- Modelled from the spec: dropping a table. -/
def table_drop_stmt (t : Table) : String := "DROP TABLE " ++ t.name ++ ";"

/-- Modelled from the spec: `Table.add_constraints_stmt` renders the
deferred (`is_alter_table`) constraints as one `ALTER TABLE ... ADD
CONSTRAINT` statement, and nothing (a falsy empty string) when the table
has none (spec sections 3 and 4.4). -/
def table_add_constraints_stmt (t : Table) : String :=
  if (t.constraints.filter (fun c => c.is_alter_table)) ≠ [] then
    "ALTER TABLE " ++ t.name ++ "\n" ++
    ",\n".intercalate ((t.constraints.filter (fun c => c.is_alter_table)).map
      (fun c => "ADD CONSTRAINT " ++ c.spec)) ++ ";"
  else ""

/-- Modelled from the spec: `Table.drop_constraints_stmt`, the inverse of
`table_add_constraints_stmt` for safe removal. -/
def table_drop_constraints_stmt (t : Table) : String :=
  if (t.constraints.filter (fun c => c.is_alter_table)) ≠ [] then
    "ALTER TABLE " ++ t.name ++ "\n" ++
    ",\n".intercalate ((t.constraints.filter (fun c => c.is_alter_table)).map
      (fun c => "DROP CONSTRAINT " ++ c.name)) ++ ";"
  else ""

/-- The deferred add-constraints pass for newly created children
(mutation.py lines 150-154 and 175-179): for each target child absent from
the source, keep its add-constraints statement when truthy. -/
def new_child_constraint_adds {α : Type} (key : α → String) (addc : α → String)
    (source target : List α) : List String :=
  ((target.filter (fun t => ! source.any (fun s => key s == key t))).map addc).filter (fun s => s ≠ "")

/-- The deferred drop-constraints pass for removed children (mutation.py
lines 187-191): for each source child absent from the target, keep its
drop-constraints statement when truthy. -/
def removed_child_constraint_drops {α : Type} (key : α → String) (dropc : α → String)
    (source target : List α) : List String :=
  ((source.filter (fun s => ! target.any (fun t => key t == key s))).map dropc).filter (fun s => s ≠ "")

/-- The statement list built by `Mutator.mutate_namespace_stmt`
(mutation.py lines 139-170): creates (enums, structs, tables), deferred
add-constraints for new tables, mutations (enums, structs, tables), drops
(tables, structs, enums). -/
def mutate_namespace_statements (ops : ColumnOps) (source target : Namespace) : Except Err (List String) :=
  match check_identity source.name target.name with
  | .error e => .error e
  | .ok _ =>
    match mutate_diff mutate_enum_stmt EnumType.name source.enums target.enums with
    | .error e => .error e
    | .ok enum_muts =>
      match mutate_diff mutate_struct_stmt StructType.name source.structs target.structs with
      | .error e => .error e
      | .ok struct_muts =>
        match mutate_diff (mutate_table_stmt ops) Table.name source.tables target.tables with
        | .error e => .error e
        | .ok table_muts =>
          .ok (create_diff EnumType.name enum_create_stmt source.enums target.enums ++
               create_diff StructType.name struct_create_stmt source.structs target.structs ++
               create_diff Table.name table_create_stmt source.tables target.tables ++
               new_child_constraint_adds Table.name table_add_constraints_stmt source.tables target.tables ++
               enum_muts ++ struct_muts ++ table_muts ++
               drop_diff Table.name table_drop_stmt source.tables target.tables ++
               drop_diff StructType.name struct_drop_stmt source.structs target.structs ++
               drop_diff EnumType.name enum_drop_stmt source.enums target.enums)

/-- `Mutator.mutate_namespace_stmt`: the newline-joined statement batch, or
`None` when no statement was produced. -/
def mutate_namespace_stmt (ops : ColumnOps) (source target : Namespace) : Except Err (Option String) :=
  match mutate_namespace_statements ops source target with
  | .error e => .error e
  | .ok statements =>
    if statements ≠ [] then .ok (some ("\n".intercalate statements)) else .ok none

/-- Modelled from the spec: creating a namespace (schema). -/
def ns_create_stmt (n : Namespace) : String := "CREATE SCHEMA " ++ n.name ++ ";"

/-- Modelled from the spec: dropping a namespace (schema). -/
def ns_drop_stmt (n : Namespace) : String := "DROP SCHEMA " ++ n.name ++ ";"

/-- Modelled from the spec: `Namespace.add_constraints_stmt` joins the
deferred add-constraints statements of the namespace's tables (spec
section 3). -/
def ns_add_constraints_stmt (n : Namespace) : String :=
  "\n".intercalate ((n.tables.map table_add_constraints_stmt).filter (fun s => s ≠ ""))

/-- Modelled from the spec: `Namespace.drop_constraints_stmt`, the inverse
deferred drop set for safe namespace removal (spec section 3). -/
def ns_drop_constraints_stmt (n : Namespace) : String :=
  "\n".intercalate ((n.tables.map table_drop_constraints_stmt).filter (fun s => s ≠ ""))

/-- The statement list built by `Mutator.mutate_catalog_stmt` (mutation.py
lines 172-193): namespace creates, deferred add-constraints for new
namespaces, namespace mutations, deferred drop-constraints for removed
namespaces, namespace drops. -/
def mutate_catalog_statements (ops : ColumnOps) (source target : Catalog) : Except Err (List String) :=
  match mutate_diff (mutate_namespace_stmt ops) Namespace.name source.namespaces target.namespaces with
  | .error e => .error e
  | .ok muts =>
    .ok (create_diff Namespace.name ns_create_stmt source.namespaces target.namespaces ++
         new_child_constraint_adds Namespace.name ns_add_constraints_stmt source.namespaces target.namespaces ++
         muts ++
         removed_child_constraint_drops Namespace.name ns_drop_constraints_stmt source.namespaces target.namespaces ++
         drop_diff Namespace.name ns_drop_stmt source.namespaces target.namespaces)

/-- `Mutator.mutate_catalog_stmt`: the newline-joined statement batch, or
`None` when no statement was produced. -/
def mutate_catalog_stmt (ops : ColumnOps) (source target : Catalog) : Except Err (Option String) :=
  match mutate_catalog_statements ops source target with
  | .error e => .error e
  | .ok statements =>
    if statements ≠ [] then .ok (some ("\n".intercalate statements)) else .ok none

/-- The character translation table `_sql_quoted_str_table` of
dialect/postgresql/object_types.py lines 5-15. -/
def sql_quoted_char (c : Char) : String :=
  if c = '\\' then "\\\\"
  else if c = '\x27' then "\\\x27"
  else if c = '\x08' then "\\b"
  else if c = '\x0c' then "\\f"
  else if c = '\n' then "\\n"
  else if c = '\x0d' then "\\r"
  else if c = '\t' then "\\t"
  else String.singleton c

/-- The character class `[\b\f\n\r\t]` of the `re.search` on line 19 of
dialect/postgresql/object_types.py (inside a class, `\b` is backspace). -/
def is_pg_control_char (c : Char) : Bool :=
  c = '\x08' || c = '\x0c' || c = '\n' || c = '\x0d' || c = '\t'

/-- `sql_quoted_string` (dialect/postgresql/object_types.py lines 18-24):
an `E'...'` extended literal with the translation table applied when the
text contains a literal control character, otherwise a plain `'...'`
literal with apostrophes doubled. -/
def sql_quoted_string (text : String) : String :=
  if text.toList.any is_pg_control_char then
    "E\x27" ++ String.join (text.toList.map sql_quoted_char) ++ "\x27"
  else
    "\x27" ++ String.join (text.toList.map
      (fun c => if c = '\x27' then "\x27\x27" else String.singleton c)) ++ "\x27"

/-- Key uniqueness of a table's name-keyed column mapping. -/
def Table.WellFormed (t : Table) : Prop := (t.columns.map Column.name).Nodup

/-- Key uniqueness of a namespace's name-keyed child mappings. -/
def Namespace.WellFormed (n : Namespace) : Prop :=
  (n.enums.map EnumType.name).Nodup ∧ (n.structs.map StructType.name).Nodup ∧
  (n.tables.map Table.name).Nodup ∧ ∀ t ∈ n.tables, t.WellFormed

/-- Key uniqueness of a catalog's name-keyed namespace mapping. -/
def Catalog.WellFormed (c : Catalog) : Prop :=
  (c.namespaces.map Namespace.name).Nodup ∧ ∀ n ∈ c.namespaces, n.WellFormed

instance (t : Table) : Decidable t.WellFormed :=
  inferInstanceAs (Decidable ((t.columns.map Column.name).Nodup))

instance (n : Namespace) : Decidable n.WellFormed := by
  unfold Namespace.WellFormed
  infer_instance

instance (c : Catalog) : Decidable c.WellFormed := by
  unfold Catalog.WellFormed
  infer_instance

theorem check_identity_ok {s t : String} (h : s = t) : check_identity s t = .ok () := by
  simp [check_identity, h]

theorem filter_not_mem_self {α : Type} [DecidableEq α] (l : List α) :
    l.filter (fun v => decide (v ∉ l)) = [] := by
  apply List.filter_eq_nil_iff.mpr
  intro a ha
  simp [ha]

theorem any_key_self {α : Type} (key : α → String) (l : List α) (t : α) (ht : t ∈ l) :
    l.any (fun s => key s == key t) = true :=
  List.any_eq_true.mpr ⟨t, ht, by simp⟩

theorem create_diff_self {α : Type} (key : α → String) (f : α → String) (l : List α) :
    create_diff key f l l = [] := by
  have h : l.filter (fun t => ! l.any (fun s => key s == key t)) = [] :=
    List.filter_eq_nil_iff.mpr (fun a ha => by simp [any_key_self key l a ha])
  simp [create_diff, h]

theorem drop_diff_self {α : Type} (key : α → String) (f : α → String) (l : List α) :
    drop_diff key f l l = [] := by
  have h : l.filter (fun s => ! l.any (fun t => key t == key s)) = [] :=
    List.filter_eq_nil_iff.mpr (fun a ha => by simp [any_key_self key l a ha])
  simp [drop_diff, h]

theorem new_child_constraint_adds_self {α : Type} (key : α → String) (f : α → String) (l : List α) :
    new_child_constraint_adds key f l l = [] := by
  have h : l.filter (fun t => ! l.any (fun s => key s == key t)) = [] :=
    List.filter_eq_nil_iff.mpr (fun a ha => by simp [any_key_self key l a ha])
  simp [new_child_constraint_adds, h]

theorem removed_child_constraint_drops_self {α : Type} (key : α → String) (f : α → String) (l : List α) :
    removed_child_constraint_drops key f l l = [] := by
  have h : l.filter (fun s => ! l.any (fun t => key t == key s)) = [] :=
    List.filter_eq_nil_iff.mpr (fun a ha => by simp [any_key_self key l a ha])
  simp [removed_child_constraint_drops, h]

theorem find_self_of_nodup {α : Type} (key : α → String) (l : List α)
    (hnd : (l.map key).Nodup) (s : α) (hs : s ∈ l) :
    l.find? (fun t => key t == key s) = some s := by
  induction l with
  | nil => cases hs
  | cons x xs ih =>
    rw [List.map_cons, List.nodup_cons] at hnd
    rcases List.mem_cons.mp hs with rfl | hs'
    · rw [List.find?_cons_of_pos _ (by simp)]
    · have hx : (key x == key s) = false := by
        rw [beq_eq_false_iff_ne]
        intro h
        exact hnd.1 (h ▸ List.mem_map_of_mem key hs')
      rw [List.find?_cons_of_neg _ (by simp [hx])]
      exact ih hnd.2 hs'

theorem mutate_diff_ok_nil {α : Type} (f : α → α → Except Err (Option String)) (key : α → String)
    (source target : List α)
    (h : ∀ s ∈ source, target.find? (fun t => key t == key s) = some s ∧ f s s = .ok none) :
    mutate_diff f key source target = .ok [] := by
  induction source with
  | nil => rfl
  | cons s rest ih =>
    have hs := h s (List.mem_cons_self s rest)
    have hrest := ih (fun x hx => h x (List.mem_cons_of_mem _ hx))
    simp [mutate_diff, hs.1, hs.2, hrest]

theorem mutate_column_stmt_refl (c : Column) : mutate_column_stmt c c = none := by
  simp [mutate_column_stmt]

theorem base_ops_mutate_refl (c : Column) :
    base_column_ops.mutate_column_stmt c c = .ok none := by
  simp [base_column_ops, mutate_column_stmt_refl]

theorem mutate_enum_stmt_refl (e : EnumType) : mutate_enum_stmt e e = .ok none := by
  simp [mutate_enum_stmt, check_identity, filter_not_mem_self]

theorem mutate_struct_stmt_refl (s : StructType) : mutate_struct_stmt s s = .ok none := by
  simp [mutate_struct_stmt, check_identity, filter_not_mem_self]

theorem table_create_update_frags_refl (source : Table) (cols : List Column)
    (h : ∀ c ∈ cols, source.columns.find? (fun x => x.name == c.name) = some c) :
    table_create_update_frags base_column_ops source cols = .ok [] := by
  induction cols with
  | nil => rfl
  | cons c cs ih =>
    have hc := h c (List.mem_cons_self c cs)
    have hcs := ih (fun x hx => h x (List.mem_cons_of_mem _ hx))
    simp [table_create_update_frags, column_pass_frag, hc, base_ops_mutate_refl, hcs]

theorem table_drop_frags_refl (target : Table) (cols : List Column)
    (h : ∀ c ∈ cols, target.columns.any (fun x => x.name == c.name) = true) :
    table_drop_frags base_column_ops target cols = .ok [] := by
  induction cols with
  | nil => rfl
  | cons c cs ih =>
    have hc := h c (List.mem_cons_self c cs)
    have hcs := ih (fun x hx => h x (List.mem_cons_of_mem _ hx))
    simp [table_drop_frags, column_drop_frag, hc, hcs]

theorem constraint_frags_refl (t : Table) : constraint_frags t t = [] := by
  by_cases h : t.constraints = [] <;> simp [constraint_frags, h]

theorem mutate_table_stmt_refl (t : Table) (ht : t.WellFormed) :
    mutate_table_stmt base_column_ops t t = .ok none := by
  have h1 : table_create_update_frags base_column_ops t t.columns = .ok [] :=
    table_create_update_frags_refl t t.columns
      (fun c hc => find_self_of_nodup Column.name t.columns ht c hc)
  have h2 : table_drop_frags base_column_ops t t.columns = .ok [] :=
    table_drop_frags_refl t t.columns
      (fun c hc => any_key_self Column.name t.columns c hc)
  simp [mutate_table_stmt, check_identity, h1, h2, catch_column_error, constraint_frags_refl]

theorem mutate_namespace_statements_refl (n : Namespace) (hn : n.WellFormed) :
    mutate_namespace_statements base_column_ops n n = .ok [] := by
  obtain ⟨he, hs, ht, htw⟩ := hn
  have h1 : mutate_diff mutate_enum_stmt EnumType.name n.enums n.enums = .ok [] :=
    mutate_diff_ok_nil _ _ _ _
      (fun e hee => ⟨find_self_of_nodup _ _ he e hee, mutate_enum_stmt_refl e⟩)
  have h2 : mutate_diff mutate_struct_stmt StructType.name n.structs n.structs = .ok [] :=
    mutate_diff_ok_nil _ _ _ _
      (fun s hss => ⟨find_self_of_nodup _ _ hs s hss, mutate_struct_stmt_refl s⟩)
  have h3 : mutate_diff (mutate_table_stmt base_column_ops) Table.name n.tables n.tables = .ok [] :=
    mutate_diff_ok_nil _ _ _ _
      (fun t htt => ⟨find_self_of_nodup _ _ ht t htt, mutate_table_stmt_refl t (htw t htt)⟩)
  simp [mutate_namespace_statements, check_identity, h1, h2, h3,
    create_diff_self, drop_diff_self, new_child_constraint_adds_self]

theorem mutate_namespace_stmt_refl (n : Namespace) (hn : n.WellFormed) :
    mutate_namespace_stmt base_column_ops n n = .ok none := by
  simp [mutate_namespace_stmt, mutate_namespace_statements_refl n hn]

theorem mutate_catalog_statements_refl (c : Catalog) (hc : c.WellFormed) :
    mutate_catalog_statements base_column_ops c c = .ok [] := by
  obtain ⟨hnd, hns⟩ := hc
  have h1 : mutate_diff (mutate_namespace_stmt base_column_ops) Namespace.name
      c.namespaces c.namespaces = .ok [] :=
    mutate_diff_ok_nil _ _ _ _
      (fun n hn => ⟨find_self_of_nodup _ _ hnd n hn, mutate_namespace_stmt_refl n (hns n hn)⟩)
  simp [mutate_catalog_statements, h1, create_diff_self, drop_diff_self,
    new_child_constraint_adds_self, removed_child_constraint_drops_self]

/-- C2: diffing any tree against itself produces no statements at any
level — `mutate_catalog_stmt`, `mutate_namespace_stmt`, `mutate_table_stmt`,
`mutate_column_stmt`, `mutate_enum_stmt` and `mutate_struct_stmt` all return
`none` (not an empty string) on identical arguments, under the key
uniqueness that the source's name-keyed mappings guarantee. -/
theorem mutate_identity_law (cat : Catalog) (ns : Namespace) (tb : Table)
    (col : Column) (en : EnumType) (st : StructType)
    (hc : cat.WellFormed) (hn : ns.WellFormed) (ht : tb.WellFormed) :
    mutate_catalog_stmt base_column_ops cat cat = .ok none ∧
    mutate_namespace_stmt base_column_ops ns ns = .ok none ∧
    mutate_table_stmt base_column_ops tb tb = .ok none ∧
    mutate_column_stmt col col = none ∧
    mutate_enum_stmt en en = .ok none ∧
    mutate_struct_stmt st st = .ok none := by
  refine ⟨?_, mutate_namespace_stmt_refl ns hn, mutate_table_stmt_refl tb ht,
    mutate_column_stmt_refl col, mutate_enum_stmt_refl en, mutate_struct_stmt_refl st⟩
  simp [mutate_catalog_stmt, mutate_catalog_statements_refl cat hc]

/-- Witness for C2 at a concrete catalog, namespace, table, column, enum
and struct. -/
theorem mutate_identity_law_witness :
    (Catalog.WellFormed ⟨[⟨"public", [⟨"status", ["a", "b"]⟩], [⟨"point", [⟨"x", "float", none⟩], none⟩],
        [⟨"users", [⟨"id", "bigint", false, none, true, none⟩, ⟨"name", "text", true, none, false, none⟩],
          [⟨"pk", "PRIMARY KEY (id)", true⟩], none⟩]⟩]⟩ ∧
     Namespace.WellFormed ⟨"public", [⟨"status", ["a", "b"]⟩], [], []⟩ ∧
     Table.WellFormed ⟨"users", [⟨"id", "bigint", false, none, true, none⟩], [], none⟩) ∧
    mutate_catalog_stmt base_column_ops
      ⟨[⟨"public", [⟨"status", ["a", "b"]⟩], [⟨"point", [⟨"x", "float", none⟩], none⟩],
        [⟨"users", [⟨"id", "bigint", false, none, true, none⟩, ⟨"name", "text", true, none, false, none⟩],
          [⟨"pk", "PRIMARY KEY (id)", true⟩], none⟩]⟩]⟩
      ⟨[⟨"public", [⟨"status", ["a", "b"]⟩], [⟨"point", [⟨"x", "float", none⟩], none⟩],
        [⟨"users", [⟨"id", "bigint", false, none, true, none⟩, ⟨"name", "text", true, none, false, none⟩],
          [⟨"pk", "PRIMARY KEY (id)", true⟩], none⟩]⟩]⟩ = .ok none ∧
    mutate_namespace_stmt base_column_ops ⟨"public", [⟨"status", ["a", "b"]⟩], [], []⟩
      ⟨"public", [⟨"status", ["a", "b"]⟩], [], []⟩ = .ok none ∧
    mutate_table_stmt base_column_ops ⟨"users", [⟨"id", "bigint", false, none, true, none⟩], [], none⟩
      ⟨"users", [⟨"id", "bigint", false, none, true, none⟩], [], none⟩ = .ok none ∧
    mutate_column_stmt ⟨"id", "bigint", false, none, true, none⟩
      ⟨"id", "bigint", false, none, true, none⟩ = none ∧
    mutate_enum_stmt ⟨"status", ["a", "b"]⟩ ⟨"status", ["a", "b"]⟩ = .ok none ∧
    mutate_struct_stmt ⟨"point", [⟨"x", "float", none⟩], none⟩
      ⟨"point", [⟨"x", "float", none⟩], none⟩ = .ok none :=
  ⟨⟨by decide, by decide, by decide⟩,
    mutate_identity_law _ _ _ ⟨"id", "bigint", false, none, true, none⟩ ⟨"status", ["a", "b"]⟩
      ⟨"point", [⟨"x", "float", none⟩], none⟩ (by decide) (by decide) (by decide)⟩

/-- C1: for every pair of matched enum types with equal names,
`mutate_enum_stmt` raises a FormationError (emitting no statement) whenever
some source value is absent from the target; otherwise it returns a single
ALTER TYPE statement with one ADD VALUE clause per added value in target
order, and nothing when the value sequences have no additions. -/
theorem enum_additive_only (source target : EnumType) (h : source.name = target.name) :
    ((∃ v, v ∈ source.values ∧ v ∉ target.values) →
        mutate_enum_stmt source target = .error (.formationError
          ("operation not permitted; cannot drop values in an enumeration: " ++
            String.join (source.values.filter (fun v => decide (v ∉ target.values)))))) ∧
    ((∀ v ∈ source.values, v ∈ target.values) →
        mutate_enum_stmt source target =
          (if target.values.filter (fun v => decide (v ∉ source.values)) = [] then .ok none
           else .ok (some ("ALTER TYPE " ++ source.name ++ "\n" ++
             ",\n".intercalate ((target.values.filter (fun v => decide (v ∉ source.values))).map
               (fun v => "ADD VALUE " ++ constant v)) ++ ";")))) := by
  constructor
  · rintro ⟨v, hv, hnv⟩
    have hrem : source.values.filter (fun v => decide (v ∉ target.values)) ≠ [] := by
      intro hnil
      have := List.filter_eq_nil_iff.mp hnil v hv
      simp [hnv] at this
    simp only [mutate_enum_stmt, check_identity_ok h]
    rw [if_pos hrem]
  · intro hall
    have hrem : source.values.filter (fun v => decide (v ∉ target.values)) = [] :=
      List.filter_eq_nil_iff.mpr (fun a ha => by simp [hall a ha])
    simp only [mutate_enum_stmt, check_identity_ok h]
    rw [if_neg (not_ne_iff.mpr hrem)]
    by_cases hadd : target.values.filter (fun v => decide (v ∉ source.values)) = []
    · rw [if_neg (not_ne_iff.mpr hadd), if_pos hadd]
    · rw [if_pos hadd, if_neg hadd]

/-- Witness for C1: `mutate(enum{a,b}, enum{a,b,c})` yields one
`ADD VALUE 'c'` clause. -/
theorem enum_additive_only_witness :
    mutate_enum_stmt ⟨"status", ["a", "b"]⟩ ⟨"status", ["a", "b", "c"]⟩ =
      .ok (some "ALTER TYPE status\nADD VALUE \x27c\x27;") :=
  (enum_additive_only ⟨"status", ["a", "b"]⟩ ⟨"status", ["a", "b", "c"]⟩ rfl).2 (by decide)

/-- C4 (code bug): `mutate_struct_stmt` never emits an ADD ATTRIBUTE
fragment — line 58 of mutation.py filters the target members against the
target's own member collection, a test that can never succeed — so a member
added in the target produces no statement at all; at the evaluated input
the spec requires one ADD ATTRIBUTE fragment, yet the code returns `None`. -/
theorem struct_add_attribute_dead :
    mutate_struct_stmt ⟨"s", [], none⟩ ⟨"s", [⟨"a", "bigint", none⟩], none⟩ = .ok none ∧
    ∀ target : StructType,
      (target.members.filter (fun m => decide (m ∉ target.members))).map
        (fun m => "ADD ATTRIBUTE " ++ struct_member_str m) = [] := by
  refine ⟨by decide, fun target => ?_⟩
  simp [filter_not_mem_self]

/-- C5 counterexample: `mutate_column_stmt` performs no identity check, so
for a name-mismatched pair of columns it returns a diff result instead of
raising a FormationError. -/
theorem identity_check_counterexample :
    (⟨"a", "int", true, none, false, none⟩ : Column).name ≠
      (⟨"b", "text", true, none, false, none⟩ : Column).name ∧
    mutate_column_stmt ⟨"a", "int", true, none, false, none⟩
      ⟨"b", "text", true, none, false, none⟩ =
      some "ALTER COLUMN a SET DATA TYPE text" := by decide

theorem mutate_column_stmt_none_of_attrs_eq (s t : Column)
    (hd : s.data_type = t.data_type) (hn : s.nullable = t.nullable)
    (hdef : s.default = t.default) (hi : s.identity = t.identity) :
    mutate_column_stmt s t = none := by
  by_cases hst : s = t
  · simp [mutate_column_stmt, hst]
  · rcases hd2 : t.default with _ | d <;>
      simp [mutate_column_stmt, hst, hd, hn, hdef, hi, hd2]

/-- C5 amended: before diffing a matched pair of enums, structs, tables or
namespaces the mutator raises a FormationError whenever the two logical
names differ, returning no diff result; `mutate_column_stmt`, however,
performs no name check (columns are matched by key inside their table) and
returns an ordinary result even for a name-mismatched pair. -/
theorem identity_check_amended :
    (∀ s t : EnumType, s.name ≠ t.name →
        mutate_enum_stmt s t =
          .error (.formationError ("object mismatch: " ++ s.name ++ " != " ++ t.name))) ∧
    (∀ s t : StructType, s.name ≠ t.name →
        mutate_struct_stmt s t =
          .error (.formationError ("object mismatch: " ++ s.name ++ " != " ++ t.name))) ∧
    (∀ (ops : ColumnOps) (s t : Table), s.name ≠ t.name →
        mutate_table_stmt ops s t =
          .error (.formationError ("object mismatch: " ++ s.name ++ " != " ++ t.name))) ∧
    (∀ (ops : ColumnOps) (s t : Namespace), s.name ≠ t.name →
        mutate_namespace_stmt ops s t =
          .error (.formationError ("object mismatch: " ++ s.name ++ " != " ++ t.name))) ∧
    (∀ s t : Column, s.name ≠ t.name → s.data_type = t.data_type → s.nullable = t.nullable →
        s.default = t.default → s.identity = t.identity → mutate_column_stmt s t = none) := by
  refine ⟨fun s t h => ?_, fun s t h => ?_, fun ops s t h => ?_, fun ops s t h => ?_,
    fun s t h hd hn hdef hi => mutate_column_stmt_none_of_attrs_eq s t hd hn hdef hi⟩
  · simp [mutate_enum_stmt, check_identity, h]
  · simp [mutate_struct_stmt, check_identity, h]
  · simp [mutate_table_stmt, check_identity, h]
  · simp [mutate_namespace_stmt, mutate_namespace_statements, check_identity, h]

/-- Witness for C5 (amended) at a concrete name-mismatched enum pair. -/
theorem identity_check_amended_witness :
    mutate_enum_stmt ⟨"a", []⟩ ⟨"b", []⟩ =
      .error (.formationError "object mismatch: a != b") :=
  identity_check_amended.1 ⟨"a", []⟩ ⟨"b", []⟩ (by decide)

/-- C6 counterexample: two columns that differ only in their description
are unequal, yet `mutate_column_stmt` returns `none` rather than an
ALTER COLUMN clause. -/
theorem column_structural_equality_counterexample :
    (⟨"a", "bigint", true, none, false, none⟩ : Column) ≠
      ⟨"a", "bigint", true, none, false, some "user id"⟩ ∧
    mutate_column_stmt ⟨"a", "bigint", true, none, false, none⟩
      ⟨"a", "bigint", true, none, false, some "user id"⟩ = none := by decide

theorem mutate_column_stmt_ne_none (s t : Column)
    (hmis : s.data_type ≠ t.data_type ∨ s.nullable ≠ t.nullable ∨
      s.default ≠ t.default ∨ s.identity ≠ t.identity) :
    mutate_column_stmt s t ≠ none := by
  have hne : s ≠ t := by
    intro he
    subst he
    rcases hmis with h | h | h | h <;> exact h rfl
  rcases hmis with h | h | h | h
  · simp [mutate_column_stmt, hne, h]
  · cases hs1 : s.nullable <;> cases ht1 : t.nullable <;>
      simp_all [mutate_column_stmt]
  · rcases hs2 : s.default with _ | d1 <;> rcases ht2 : t.default with _ | d2 <;>
      simp_all [mutate_column_stmt]
  · cases hs3 : s.identity <;> cases ht3 : t.identity <;>
      simp_all [mutate_column_stmt]

/-- C6 amended: two columns are equal iff every attribute (name, data type,
nullability, default, identity, description) matches; a mismatch in data
type, nullability, default or identity yields an ALTER COLUMN clause, but a
mismatch only in name or description yields no statement at all. -/
theorem column_structural_equality_amended (s t : Column) :
    (s = t ↔ s.name = t.name ∧ s.data_type = t.data_type ∧ s.nullable = t.nullable ∧
      s.default = t.default ∧ s.identity = t.identity ∧ s.description = t.description) ∧
    ((s.data_type ≠ t.data_type ∨ s.nullable ≠ t.nullable ∨ s.default ≠ t.default ∨
        s.identity ≠ t.identity) → mutate_column_stmt s t ≠ none) ∧
    (s.data_type = t.data_type → s.nullable = t.nullable → s.default = t.default →
      s.identity = t.identity → mutate_column_stmt s t = none) := by
  refine ⟨?_, mutate_column_stmt_ne_none s t, mutate_column_stmt_none_of_attrs_eq s t⟩
  constructor
  · rintro rfl
    exact ⟨rfl, rfl, rfl, rfl, rfl, rfl⟩
  · rintro ⟨h1, h2, h3, h4, h5, h6⟩
    cases s
    cases t
    simp_all

/-- Witness for C6 (amended): the four diff-relevant attributes agree, so
the result is `none` despite the differing descriptions. -/
theorem column_structural_equality_amended_witness :
    mutate_column_stmt ⟨"a", "int", true, none, false, none⟩
      ⟨"a", "int", true, none, false, some "x"⟩ = none :=
  (column_structural_equality_amended ⟨"a", "int", true, none, false, none⟩
    ⟨"a", "int", true, none, false, some "x"⟩).2.2 rfl rfl rfl rfl

theorem intercalate_singleton (sep x : String) : sep.intercalate [x] = x := rfl

theorem mutate_column_single_data_type (s t : Column) (h : s.data_type ≠ t.data_type)
    (hn : s.nullable = t.nullable) (hdef : s.default = t.default) (hi : s.identity = t.identity) :
    mutate_column_stmt s t =
      some ("ALTER COLUMN " ++ s.name ++ " " ++ ("SET DATA TYPE " ++ t.data_type)) := by
  have hne : s ≠ t := fun he => h (by rw [he])
  rcases hd2 : t.default with _ | d <;>
    simp [mutate_column_stmt, hne, h, hn, hdef, hi, hd2, intercalate_singleton]

theorem mutate_column_single_nullable (s t : Column) (hd : s.data_type = t.data_type)
    (h : s.nullable ≠ t.nullable) (hdef : s.default = t.default) (hi : s.identity = t.identity) :
    mutate_column_stmt s t = some ("ALTER COLUMN " ++ s.name ++ " " ++
      (if t.nullable then "DROP NOT NULL" else "SET NOT NULL")) := by
  have hne : s ≠ t := fun he => h (by rw [he])
  rcases hd2 : t.default with _ | d <;>
    cases hs1 : s.nullable <;> cases ht1 : t.nullable <;>
      simp_all [mutate_column_stmt, intercalate_singleton]

theorem mutate_column_single_default (s t : Column) (hd : s.data_type = t.data_type)
    (hn : s.nullable = t.nullable) (h : s.default ≠ t.default) (hi : s.identity = t.identity) :
    mutate_column_stmt s t = some ("ALTER COLUMN " ++ s.name ++ " " ++
      (match t.default with
       | none => "DROP DEFAULT"
       | some d => "SET DEFAULT " ++ d)) := by
  have hne : s ≠ t := fun he => h (by rw [he])
  rcases hs2 : s.default with _ | d1 <;> rcases ht2 : t.default with _ | d2 <;>
    simp_all [mutate_column_stmt, py_opt_str, intercalate_singleton]

theorem mutate_column_single_identity (s t : Column) (hd : s.data_type = t.data_type)
    (hn : s.nullable = t.nullable) (hdef : s.default = t.default) (h : s.identity ≠ t.identity) :
    mutate_column_stmt s t = some ("ALTER COLUMN " ++ s.name ++ " " ++
      (if t.identity then "ADD GENERATED BY DEFAULT AS IDENTITY" else "DROP IDENTITY")) := by
  have hne : s ≠ t := fun he => h (by rw [he])
  rcases hd2 : t.default with _ | d <;>
    cases hs3 : s.identity <;> cases ht3 : t.identity <;>
      simp_all [mutate_column_stmt, intercalate_singleton]

theorem oracle_single_data_type (s t : Column) (h : s.data_type ≠ t.data_type)
    (hn : s.nullable = t.nullable) (hdef : s.default = t.default) (hi : s.identity = t.identity) :
    oracle_mutate_column_stmt s t = some ("MODIFY " ++ s.name ++ " " ++ t.data_type) := by
  simp [oracle_mutate_column_stmt, h, hn, hdef, hi, intercalate_singleton]

theorem oracle_single_default (s t : Column) (hd : s.data_type = t.data_type)
    (hn : s.nullable = t.nullable) (h : s.default ≠ t.default) (hi : s.identity = t.identity) :
    oracle_mutate_column_stmt s t = some ("MODIFY " ++ s.name ++ " " ++
      (match t.default with
       | none => "DEFAULT NULL"
       | some d => "DEFAULT " ++ d)) := by
  rcases ht2 : t.default with _ | d <;>
    simp_all [oracle_mutate_column_stmt, oracle_default_expr, intercalate_singleton]

theorem oracle_single_nullable (s t : Column) (hd : s.data_type = t.data_type)
    (h : s.nullable ≠ t.nullable) (hdef : s.default = t.default) (hi : s.identity = t.identity) :
    oracle_mutate_column_stmt s t = some ("MODIFY " ++ s.name ++ " " ++
      (if t.nullable then "NULL" else "NOT NULL")) := by
  cases hs1 : s.nullable <;> cases ht1 : t.nullable <;>
    simp_all [oracle_mutate_column_stmt, intercalate_singleton]

theorem oracle_single_identity (s t : Column) (hd : s.data_type = t.data_type)
    (hn : s.nullable = t.nullable) (hdef : s.default = t.default) (h : s.identity ≠ t.identity) :
    oracle_mutate_column_stmt s t = some ("MODIFY " ++ s.name ++ " " ++
      (if t.identity then "GENERATED BY DEFAULT AS IDENTITY" else "DROP IDENTITY")) := by
  cases hs3 : s.identity <;> cases ht3 : t.identity <;>
    simp_all [oracle_mutate_column_stmt, intercalate_singleton]

/-- C7: for two columns differing in exactly one of the attributes data
type, nullability, default or identity, the base `mutate_column_stmt`
produces exactly one alter fragment mentioning only that attribute
(SET DATA TYPE; SET NOT NULL / DROP NOT NULL; DROP DEFAULT on
disappearance or SET DEFAULT on appearance or change; DROP IDENTITY /
ADD GENERATED BY DEFAULT AS IDENTITY), and the Oracle dialect's
`oracle_mutate_column_stmt` likewise produces a single MODIFY clause with
one change token for that attribute alone. -/
theorem column_single_attribute_fragment (s t : Column) :
    (s.data_type ≠ t.data_type → s.nullable = t.nullable → s.default = t.default →
      s.identity = t.identity →
      mutate_column_stmt s t =
        some ("ALTER COLUMN " ++ s.name ++ " " ++ ("SET DATA TYPE " ++ t.data_type))) ∧
    (s.data_type = t.data_type → s.nullable ≠ t.nullable → s.default = t.default →
      s.identity = t.identity →
      mutate_column_stmt s t = some ("ALTER COLUMN " ++ s.name ++ " " ++
        (if t.nullable then "DROP NOT NULL" else "SET NOT NULL"))) ∧
    (s.data_type = t.data_type → s.nullable = t.nullable → s.default ≠ t.default →
      s.identity = t.identity →
      mutate_column_stmt s t = some ("ALTER COLUMN " ++ s.name ++ " " ++
        (match t.default with
         | none => "DROP DEFAULT"
         | some d => "SET DEFAULT " ++ d))) ∧
    (s.data_type = t.data_type → s.nullable = t.nullable → s.default = t.default →
      s.identity ≠ t.identity →
      mutate_column_stmt s t = some ("ALTER COLUMN " ++ s.name ++ " " ++
        (if t.identity then "ADD GENERATED BY DEFAULT AS IDENTITY" else "DROP IDENTITY"))) ∧
    (s.data_type ≠ t.data_type → s.nullable = t.nullable → s.default = t.default →
      s.identity = t.identity →
      oracle_mutate_column_stmt s t = some ("MODIFY " ++ s.name ++ " " ++ t.data_type)) ∧
    (s.data_type = t.data_type → s.nullable = t.nullable → s.default ≠ t.default →
      s.identity = t.identity →
      oracle_mutate_column_stmt s t = some ("MODIFY " ++ s.name ++ " " ++
        (match t.default with
         | none => "DEFAULT NULL"
         | some d => "DEFAULT " ++ d))) ∧
    (s.data_type = t.data_type → s.nullable ≠ t.nullable → s.default = t.default →
      s.identity = t.identity →
      oracle_mutate_column_stmt s t = some ("MODIFY " ++ s.name ++ " " ++
        (if t.nullable then "NULL" else "NOT NULL"))) ∧
    (s.data_type = t.data_type → s.nullable = t.nullable → s.default = t.default →
      s.identity ≠ t.identity →
      oracle_mutate_column_stmt s t = some ("MODIFY " ++ s.name ++ " " ++
        (if t.identity then "GENERATED BY DEFAULT AS IDENTITY" else "DROP IDENTITY"))) :=
  ⟨fun h hn hdef hi => mutate_column_single_data_type s t h hn hdef hi,
   fun hd h hdef hi => mutate_column_single_nullable s t hd h hdef hi,
   fun hd hn h hi => mutate_column_single_default s t hd hn h hi,
   fun hd hn hdef h => mutate_column_single_identity s t hd hn hdef h,
   fun h hn hdef hi => oracle_single_data_type s t h hn hdef hi,
   fun hd hn h hi => oracle_single_default s t hd hn h hi,
   fun hd h hdef hi => oracle_single_nullable s t hd h hdef hi,
   fun hd hn hdef h => oracle_single_identity s t hd hn hdef h⟩

/-- Witness for C7: a type-only change yields exactly the SET DATA TYPE
clause. -/
theorem column_single_attribute_fragment_witness :
    mutate_column_stmt ⟨"a", "int", true, none, false, none⟩
      ⟨"a", "bigint", true, none, false, none⟩ =
      some "ALTER COLUMN a SET DATA TYPE bigint" :=
  (column_single_attribute_fragment ⟨"a", "int", true, none, false, none⟩
    ⟨"a", "bigint", true, none, false, none⟩).1 (by decide) rfl rfl rfl

/-- C8: whenever a ColumnFormationError arises in either per-column loop of
`mutate_table_stmt`, the call surfaces a TableFormationError that carries
the target table's identifier and preserves the original column error as
its cause. -/
theorem table_error_attribution (ops : ColumnOps) (s t : Table) (h : s.name = t.name)
    (m : String) :
    (table_create_update_frags ops s t.columns = .error (.columnFormationError m) →
       mutate_table_stmt ops s t = .error (.tableFormationError
         "failed to create or update columns in table" t.name (.columnFormationError m))) ∧
    (∀ l1, table_create_update_frags ops s t.columns = .ok l1 →
       table_drop_frags ops t s.columns = .error (.columnFormationError m) →
       mutate_table_stmt ops s t = .error (.tableFormationError
         "failed to drop columns in table" t.name (.columnFormationError m))) := by
  constructor
  · intro h1
    simp [mutate_table_stmt, check_identity_ok h, h1, catch_column_error]
  · intro l1 h1 h2
    simp [mutate_table_stmt, check_identity_ok h, h1, h2, catch_column_error]

/-- Witness for C8: a column failure injected inside table `orders`
surfaces as a TableFormationError naming `orders` with the column error as
cause. -/
def failing_column_ops : ColumnOps where
  create_stmt _ := .error (.columnFormationError "column failure")
  drop_stmt _ := .error (.columnFormationError "column failure")
  mutate_column_stmt _ _ := .error (.columnFormationError "column failure")

theorem table_error_attribution_witness :
    mutate_table_stmt failing_column_ops ⟨"orders", [], [], none⟩
      ⟨"orders", [⟨"email", "text", true, none, false, none⟩], [], none⟩ =
      .error (.tableFormationError "failed to create or update columns in table" "orders"
        (.columnFormationError "column failure")) :=
  (table_error_attribution failing_column_ops ⟨"orders", [], [], none⟩
    ⟨"orders", [⟨"email", "text", true, none, false, none⟩], [], none⟩ rfl "column failure").1
    (by decide)

/-- C10: constraint fragments are emitted only when exactly one of the two
tables has constraints — DROP CONSTRAINT per deferred source constraint
when only the source has any, ADD CONSTRAINT per deferred target
constraint when only the target has any, and nothing at all when both
constraint sets are non-empty, regardless of how they differ; in the
both-non-empty case the final statement of `mutate_table_stmt` contains
only the column fragments. -/
theorem constraint_diff_one_sided (s t : Table) :
    (s.constraints ≠ [] → t.constraints = [] →
       constraint_frags s t = (s.constraints.filter (fun c => c.is_alter_table)).map
         (fun c => "DROP CONSTRAINT " ++ c.name)) ∧
    (s.constraints = [] → t.constraints ≠ [] →
       constraint_frags s t = (t.constraints.filter (fun c => c.is_alter_table)).map
         (fun c => "ADD CONSTRAINT " ++ c.spec)) ∧
    (s.constraints ≠ [] → t.constraints ≠ [] → constraint_frags s t = []) ∧
    (∀ (ops : ColumnOps) (l1 l2 : List String), s.name = t.name →
       s.constraints ≠ [] → t.constraints ≠ [] →
       table_create_update_frags ops s t.columns = .ok l1 →
       table_drop_frags ops t s.columns = .ok l2 →
       mutate_table_stmt ops s t =
         (if l1 ++ l2 ≠ [] then .ok (some (alter_table_stmt s (l1 ++ l2))) else .ok none)) := by
  refine ⟨fun hs ht => ?_, fun hs ht => ?_, fun hs ht => ?_, fun ops l1 l2 h hs ht h1 h2 => ?_⟩
  · simp [constraint_frags, hs, ht]
  · simp [constraint_frags, hs, ht]
  · simp [constraint_frags, hs, ht]
  · have hcf : constraint_frags s t = [] := by simp [constraint_frags, hs, ht]
    simp [mutate_table_stmt, check_identity_ok h, h1, h2, catch_column_error, hcf]

/-- Witness for C10: both tables carry (different) constraints and no
constraint fragment is emitted. -/
theorem constraint_diff_one_sided_witness :
    constraint_frags ⟨"t", [], [⟨"a", "UNIQUE (x)", true⟩], none⟩
      ⟨"t", [], [⟨"b", "UNIQUE (y)", true⟩], none⟩ = [] :=
  (constraint_diff_one_sided ⟨"t", [], [⟨"a", "UNIQUE (x)", true⟩], none⟩
    ⟨"t", [], [⟨"b", "UNIQUE (y)", true⟩], none⟩).2.2.1 (by decide) (by decide)

/-- C3 counterexample: within a table, create and mutate fragments
interleave in target column order — here the mutation fragment for matched
column `a` precedes the creation fragment for target-only column `b` in
the emitted `ALTER TABLE`, contradicting the claim that creates precede
mutations at every container level. -/
theorem ordering_claim_counterexample :
    mutate_table_stmt base_column_ops
      ⟨"t", [⟨"a", "int", true, none, false, none⟩], [], none⟩
      ⟨"t", [⟨"a", "text", true, none, false, none⟩,
             ⟨"b", "bigint", true, none, false, none⟩], [], none⟩ =
      .ok (some "ALTER TABLE t\nALTER COLUMN a SET DATA TYPE text,\nb bigint;") ∧
    table_create_update_frags base_column_ops
      ⟨"t", [⟨"a", "int", true, none, false, none⟩], [], none⟩
      [⟨"a", "text", true, none, false, none⟩, ⟨"b", "bigint", true, none, false, none⟩] =
      .ok ["ALTER COLUMN a SET DATA TYPE text", "b bigint"] ∧
    mutate_column_stmt ⟨"a", "int", true, none, false, none⟩
      ⟨"a", "text", true, none, false, none⟩ = some "ALTER COLUMN a SET DATA TYPE text" ∧
    col_create_stmt ⟨"b", "bigint", true, none, false, none⟩ = "b bigint" :=
  ⟨by decide, by decide, by decide, by decide⟩

/-- C3 amended: at the catalog and namespace levels the statement sequence
is exactly creates, then deferred add-constraints for newly created
children, then mutations, then (at catalog level) deferred
drop-constraints for removed namespaces, then drops — namespace creates
ordered enums, structs, tables and namespace drops in the reverse order;
within a table, however, the first-pass fragments (a create fragment per
target-only column, a mutation fragment per changed matched column) appear
interleaved in target column order, followed by all drop fragments for
source-only columns, followed by the constraint fragments. -/
theorem mutation_statement_ordering :
    (∀ (ops : ColumnOps) (cs ct : Catalog) (L : List String),
       mutate_catalog_statements ops cs ct = .ok L →
       ∃ M, mutate_diff (mutate_namespace_stmt ops) Namespace.name cs.namespaces ct.namespaces = .ok M ∧
         L = create_diff Namespace.name ns_create_stmt cs.namespaces ct.namespaces ++
             new_child_constraint_adds Namespace.name ns_add_constraints_stmt cs.namespaces ct.namespaces ++
             M ++
             removed_child_constraint_drops Namespace.name ns_drop_constraints_stmt cs.namespaces ct.namespaces ++
             drop_diff Namespace.name ns_drop_stmt cs.namespaces ct.namespaces) ∧
    (∀ (ops : ColumnOps) (ns nt : Namespace) (L : List String),
       mutate_namespace_statements ops ns nt = .ok L →
       ∃ me ms mt,
         mutate_diff mutate_enum_stmt EnumType.name ns.enums nt.enums = .ok me ∧
         mutate_diff mutate_struct_stmt StructType.name ns.structs nt.structs = .ok ms ∧
         mutate_diff (mutate_table_stmt ops) Table.name ns.tables nt.tables = .ok mt ∧
         L = create_diff EnumType.name enum_create_stmt ns.enums nt.enums ++
             create_diff StructType.name struct_create_stmt ns.structs nt.structs ++
             create_diff Table.name table_create_stmt ns.tables nt.tables ++
             new_child_constraint_adds Table.name table_add_constraints_stmt ns.tables nt.tables ++
             me ++ ms ++ mt ++
             drop_diff Table.name table_drop_stmt ns.tables nt.tables ++
             drop_diff StructType.name struct_drop_stmt ns.structs nt.structs ++
             drop_diff EnumType.name enum_drop_stmt ns.enums nt.enums) ∧
    (∀ (ops : ColumnOps) (s t : Table) (l1 l2 : List String), s.name = t.name →
       table_create_update_frags ops s t.columns = .ok l1 →
       table_drop_frags ops t s.columns = .ok l2 →
       mutate_table_stmt ops s t =
         (if l1 ++ l2 ++ constraint_frags s t ≠ [] then
            .ok (some (alter_table_stmt s (l1 ++ l2 ++ constraint_frags s t)))
          else .ok none)) ∧
    (∀ (ops : ColumnOps) (s : Table) (cols : List Column) (F : Column → List String),
       (∀ c ∈ cols, column_pass_frag ops s c = .ok (F c)) →
       table_create_update_frags ops s cols = .ok ((cols.map F).flatten)) := by
  refine ⟨fun ops cs ct L hL => ?_, fun ops ns nt L hL => ?_,
    fun ops s t l1 l2 h h1 h2 => ?_, fun ops s cols F => ?_⟩
  · cases hmd : mutate_diff (mutate_namespace_stmt ops) Namespace.name cs.namespaces ct.namespaces with
    | error e => simp [mutate_catalog_statements, hmd] at hL
    | ok M =>
      simp only [mutate_catalog_statements, hmd] at hL
      injection hL with hL2
      exact ⟨M, rfl, hL2.symm⟩
  · cases hid : check_identity ns.name nt.name with
    | error e => simp [mutate_namespace_statements, hid] at hL
    | ok u =>
      cases hme : mutate_diff mutate_enum_stmt EnumType.name ns.enums nt.enums with
      | error e => simp [mutate_namespace_statements, hid, hme] at hL
      | ok me =>
        cases hms : mutate_diff mutate_struct_stmt StructType.name ns.structs nt.structs with
        | error e => simp [mutate_namespace_statements, hid, hme, hms] at hL
        | ok ms =>
          cases hmt : mutate_diff (mutate_table_stmt ops) Table.name ns.tables nt.tables with
          | error e => simp [mutate_namespace_statements, hid, hme, hms, hmt] at hL
          | ok mt =>
            simp only [mutate_namespace_statements, hid, hme, hms, hmt] at hL
            injection hL with hL2
            exact ⟨me, ms, mt, rfl, rfl, rfl, hL2.symm⟩
  · simp [mutate_table_stmt, check_identity_ok h, h1, h2, catch_column_error]
  · induction cols with
    | nil => intro _; rfl
    | cons c cs ih =>
      intro hF
      have hc := hF c (List.mem_cons_self c cs)
      have hcs := ih (fun x hx => hF x (List.mem_cons_of_mem _ hx))
      simp [table_create_update_frags, hc, hcs]

/-- Witness for C3 (amended) at a concrete table pair with no fragments. -/
theorem mutation_statement_ordering_witness :
    mutate_table_stmt base_column_ops ⟨"t", [], [], none⟩ ⟨"t", [], [], none⟩ = .ok none :=
  mutation_statement_ordering.2.2.1 base_column_ops ⟨"t", [], [], none⟩ ⟨"t", [], [], none⟩
    [] [] rfl rfl rfl

/-- C9 counterexample: on an input consisting of one backslash the
renderer takes the plain-literal branch and leaves the backslash
unescaped, so the claim that the backslash character is escaped for every
input string fails. -/
theorem pg_quoted_string_counterexample :
    sql_quoted_string "\x5c" = "\x27\x5c\x27" ∧
    ("\x27\x5c\x27" : String) ≠ "\x27\x5c\x5c\x27" := by decide

/-- C9 amended: the renderer produces an extended `E'...'` literal exactly
when the input contains a literal backspace, form-feed, newline,
carriage-return or tab, and in that branch all seven characters of the
translation table (backslash, apostrophe and the five control characters)
are escaped; in a plain literal only apostrophes are escaped, by doubling,
and every other character — backslash included — passes through
unchanged. -/
theorem pg_quoted_string_amended (text : String) :
    (text.toList.any is_pg_control_char = true →
       sql_quoted_string text =
         "E\x27" ++ String.join (text.toList.map sql_quoted_char) ++ "\x27") ∧
    (text.toList.any is_pg_control_char = false →
       sql_quoted_string text = "\x27" ++ String.join (text.toList.map
         (fun c => if c = '\x27' then "\x27\x27" else String.singleton c)) ++ "\x27") ∧
    sql_quoted_char '\\' = "\x5c\x5c" ∧
    sql_quoted_char '\x27' = "\x5c\x27" ∧
    sql_quoted_char '\x08' = "\x5cb" ∧
    sql_quoted_char '\x0c' = "\x5cf" ∧
    sql_quoted_char '\n' = "\x5cn" ∧
    sql_quoted_char '\x0d' = "\x5cr" ∧
    sql_quoted_char '\t' = "\x5ct" ∧
    (∀ c : Char, c ≠ '\\' → c ≠ '\x27' → is_pg_control_char c = false →
       sql_quoted_char c = String.singleton c) := by
  refine ⟨fun h => ?_, fun h => ?_, rfl, rfl, rfl, rfl, rfl, rfl, rfl, fun c h1 h2 h3 => ?_⟩
  · simp only [sql_quoted_string]
    rw [if_pos h]
  · simp only [sql_quoted_string]
    rw [if_neg (by rw [h]; simp)]
  · simp only [is_pg_control_char, Bool.or_eq_false_iff, decide_eq_false_iff_not] at h3
    obtain ⟨⟨⟨⟨h4, h5⟩, h6⟩, h7⟩, h8⟩ := h3
    simp [sql_quoted_char, h1, h2, h4, h5, h6, h7, h8]

/-- Witness for C9 (amended): an input with a newline and an apostrophe is
rendered as an E-tagged literal with both escaped. -/
theorem pg_quoted_string_amended_witness :
    sql_quoted_string "a\nb\x27" = "E\x27a\x5cnb\x5c\x27\x27" :=
  (pg_quoted_string_amended "a\nb\x27").1 (by decide)

end PySqlSync
